import Mathlib

/-!
# Shallow embedding of `pinata-cli.py`

A verification development for the `pinata-cli` repository: a single-file
Python CLI client for the Pinata pinning service.  The Python program is
embedded shallowly:

* the local filesystem is an association list from paths to file contents;
* the single HTTP request an operation makes is parameterised by an
  `HttpResult` (a transport failure, or a response with a status code and a
  body that may or may not be valid JSON);
* the interactive confirmation prompt is parameterised by the string the
  user types;
* each CLI operation is a pure function returning a `Run`: the list of
  printed messages, the list of network calls attempted, and the `Outcome`
  (an explicit `sys.exit`, an uncaught exception reaching the process
  boundary, or a normal return value).

Machine-level details that no claim depends on are elided and noted where
they occur (the exact text interpolated into error messages from exception
objects, and the rendering of a table into aligned text — tables are kept
as structured header/row data, which is what `tabulate` receives).
-/

set_option autoImplicit false

namespace PinataCLI

mutual

/-- A JSON value, as produced by `response.json()` / consumed by the
renderers.  Python `dict`s are association lists (`JFields`, first binding
wins on lookup, matching JSON objects with unique keys); `JElems` is the
element list of a JSON array. -/
inductive JVal where
  | null
  | str (s : String)
  | num (n : Int)
  | bool (b : Bool)
  | obj (fields : JFields)
  | arr (elems : JElems)
  deriving DecidableEq, Repr

inductive JFields where
  | nil
  | cons (key : String) (value : JVal) (rest : JFields)
  deriving DecidableEq, Repr

inductive JElems where
  | nil
  | cons (head : JVal) (rest : JElems)
  deriving DecidableEq, Repr

end

/-- Python `dict` lookup: the value bound to `k`, if any. -/
def JFields.lookup (k : String) : JFields → Option JVal
  | .nil => none
  | .cons key value rest => if key = k then some value else rest.lookup k

/-- The keys of a `dict`, in insertion order (what `for x in d` iterates). -/
def JFields.keys : JFields → List String
  | .nil => []
  | .cons key _ rest => key :: rest.keys

def JFields.ofList : List (String × JVal) → JFields
  | [] => .nil
  | (k, v) :: rest => .cons k v (JFields.ofList rest)

def JElems.toList : JElems → List JVal
  | .nil => []
  | .cons head rest => head :: rest.toList

def JElems.ofList : List JVal → JElems
  | [] => .nil
  | v :: rest => .cons v (JElems.ofList rest)

/-- Python truthiness of a JSON value (`if keyvalues:`, `if not s:`):
`None`, `0`, `False`, and empty strings/dicts/lists are falsy. -/
def pyTruthy : JVal → Bool
  | .null => false
  | .str s => s ≠ ""
  | .num n => n ≠ 0
  | .bool b => b
  | .obj fields => fields ≠ .nil
  | .arr elems => elems ≠ .nil

/-- The local filesystem: full path ↦ file contents.  Writing prepends, so
`List.lookup` sees the most recent write, matching overwrite-on-open-"w". -/
def FS : Type := List (String × String)

def fsRead (fs : FS) (path : String) : Option String :=
  List.lookup path fs

def fsWrite (fs : FS) (path content : String) : FS :=
  (path, content) :: fs

/-- Path `os.path.join(os.path.expanduser("~"), ".pinata")` with the home
directory abstracted to the literal `~`. -/
def pinataDir : String := "~/.pinata"

/-- The fixed credential path `~/.pinata/.credentials` used by `read_token`. -/
def credFilePath : String := pinataDir ++ "/" ++ ".credentials"

/-- Result of `open(path, 'r')` + `file.read()`: the contents, a
`FileNotFoundError`, or any other `Exception` (`ioFault` set). -/
inductive OpenResult where
  | ok (content : String)
  | fileNotFound
  | otherError
  deriving DecidableEq, Repr

/-- Opening the credential file for reading: an injected I/O fault raises a
generic exception; otherwise the file is read if present and
`FileNotFoundError` is raised if absent. -/
def openCredFile (fs : FS) (ioFault : Bool) : OpenResult :=
  if ioFault then .otherError
  else
    match fsRead fs credFilePath with
    | some c => .ok c
    | none => .fileNotFound

/-- Embeds `read_token()` (src/pinata-cli.py:61-79): returns the file contents, or
`False` (here `none`) on `FileNotFoundError` or any other `Exception` —
both handlers `return False`, so the function never raises. -/
def read_token (fs : FS) (ioFault : Bool) : Option String :=
  match openCredFile fs ioFault with
  | .ok content => some content
  | .fileNotFound => none
  | .otherError => none

/-- Embeds `save_token_to_file(file_name, content)` (src/pinata-cli.py:39-58):
writes `content` to `~/.pinata/<file_name>`, returning `True`; a write
failure (`writeOk = false`) is caught, printed, and returns `False`
leaving the filesystem unchanged. -/
def save_token_to_file (fs : FS) (file_name content : String) (writeOk : Bool) :
    Bool × FS :=
  if writeOk then (true, fsWrite fs (pinataDir ++ "/" ++ file_name) content)
  else (false, fs)

/-- Python truthiness of `read_token()`'s result at the call sites
`if not api_key:`: `False` (`none`) and the empty string are both falsy. -/
def tokenFalsy : Option String → Bool
  | none => true
  | some s => s = ""

/-! ## HTTP layer -/

/-- What the single `requests` call of an operation encounters: a
transport-level failure (DNS, TLS, timeout — `requests` raises a
`ConnectionError`-like exception), or an HTTP response with a status code
and a body; `body = none` means the body is not valid JSON, so
`response.json()` raises. -/
inductive HttpResult where
  | transportError
  | response (status : Nat) (body : Option JVal)
  deriving DecidableEq, Repr

/-- Call `response.raise_for_status()` raises `requests.exceptions.HTTPError`
exactly for client (4xx) and server (5xx) error statuses. -/
def raisesForStatus (status : Nat) : Bool :=
  400 ≤ status && status < 600

/-- The request failed: the transport raised, or the response carries an
HTTP error status. -/
def HttpResult.isFailure : HttpResult → Bool
  | .transportError => true
  | .response status _ => raisesForStatus status

/-- The payload of the update PUT request (lines 330-333): the new name
and the always-empty `keyvalues` map. -/
structure UpdatePayload where
  name : String
  keyvalues : JFields
  deriving DecidableEq, Repr

/-- A network call attempted by an operation (the call is recorded whether
or not the transport succeeds). For `post`, `fileName` is the filename in
the multipart `file` field and `formName` the `name` form field — both are
`file_path.split('/')[-1]`. -/
inductive NetCall where
  | get (url : String)
  | post (url : String) (fileName formName : String)
  | put (url : String) (payload : UpdatePayload)
  | delete (url : String)
  deriving DecidableEq, Repr

/-- How an operation's control flow ends: an explicit `sys.exit(code)`, an
uncaught exception reaching the process boundary, or a normal `return`
(`v = none` models returning `None` / falling off the end). -/
inductive Outcome where
  | exited (code : Nat)
  | crashed
  | returned (v : Option JVal)
  deriving DecidableEq, Repr

/-- The process terminates with a non-zero status: an explicit `sys.exit`
with a non-zero code, or an uncaught exception (the interpreter then exits
with status 1).  A normal return flows back to `main`, which finishes the
process with status 0. -/
def Outcome.nonZeroExit : Outcome → Bool
  | .exited code => code ≠ 0
  | .crashed => true
  | .returned _ => false

/-- A message printed to stdout.  `text` is a literal string from the
source; `pyval` is `print` applied to a Python value (an error dict, or
the possibly-`None` `message` field); `table`/`fieldTable` are the
structured data handed to `tabulate` (text alignment elided);
`errorWith v` is `print("Error:", v)`. -/
inductive Msg where
  | text (s : String)
  | pyval (v : JVal)
  | table (headers : List String) (rows : List (List JVal))
  | fieldTable (rows : List (String × JVal))
  | errorWith (v : JVal)
  deriving DecidableEq, Repr

/-- Value `\x7b"error": f"HTTP error occurred: ..."\x7d`; the interpolated
exception text is elided. -/
def httpErrorVal : JVal := .obj (.cons "error" (.str "HTTP error occurred") .nil)

/-- Value `\x7b"error": f"An error occurred: ..."\x7d`; the interpolated exception
text is elided. -/
def genericErrorVal : JVal := .obj (.cons "error" (.str "An error occurred") .nil)

/-- One operation's observable behaviour: the printed messages, the
network calls attempted, and how control flow ends. -/
structure Run where
  prints : List Msg
  net : List NetCall
  out : Outcome
  deriving DecidableEq, Repr

def tokenSetupMsg : String :=
  "Error Reading Pinata API Token, Run Setup First using ./pinata-cli -s"

/-- The run surfaced a failure to the user as the source formats them: one
of the two error dicts was printed or returned, or the detail command's
error line was printed. -/
def reportsFailure (r : Run) : Bool :=
  r.prints.contains (.pyval httpErrorVal) ||
  r.prints.contains (.pyval genericErrorVal) ||
  r.prints.contains (.text "HTTP error occurred") ||
  r.prints.contains (.text "An error occurred") ||
  r.out == .returned (some httpErrorVal) ||
  r.out == .returned (some genericErrorVal)

/-! ## String helpers mirroring the Python string operations used -/

/-- Python `s.split(c)` for a one-character separator: splits at every
occurrence, keeping empty segments; `"".split(c) == [""]`.  The result is
never `[]`. -/
def pySplit (c : Char) : List Char → List (List Char)
  | [] => [[]]
  | x :: xs =>
    if x = c then [] :: pySplit c xs
    else
      match pySplit c xs with
      | [] => [[x]]
      | seg :: rest => (x :: seg) :: rest

/-- Python `file_path.split('/')[-1]`: the segment after the last slash. -/
def basename (filePath : String) : String :=
  String.mk ((pySplit '/' filePath.data).getLastD [])

/-- Python `s.lower()`, character by character (Python lowercases full Unicode;
the confirmation tokens compared against are ASCII). -/
def pyLower (s : String) : String :=
  String.mk (s.data.map Char.toLower)

/-- Lines 316-319: `file_id, new_name = data.split(",")` (a `ValueError`
unless the split has exactly two parts) followed by
`file_id.split("=")[1]` and `new_name.split("=")[1]` (an `IndexError`
unless each part splits into at least two).  `none` models the uncaught
exception; note the key names before `=` are never inspected. -/
def parseUpdateSpec (data : List Char) : Option (List Char × List Char) :=
  match pySplit ',' data with
  | [a, b] =>
    match pySplit '=' a, pySplit '=' b with
    | _ :: v1 :: _, _ :: v2 :: _ => some (v1, v2)
    | _, _ => none
  | _ => none

/-- Python `k in v`: a membership test for dicts (keys), lists (elements)
and strings (substring, via split); subscripting other values with `in`
raises `TypeError` (`none`). -/
def pyContains (k : String) : JVal → Option Bool
  | .obj fields => some (fields.lookup k).isSome
  | .arr elems => some (elems.toList.contains (.str k))
  | .str s => some (decide (k.data <:+: s.data))
  | _ => none

/-- Python `for x in v`: dicts iterate their keys, lists their elements,
strings their characters; iterating any other value raises `TypeError`
(`none`). -/
def pyIter : JVal → Option (List JVal)
  | .obj fields => some (fields.keys.map .str)
  | .arr elems => some elems.toList
  | .str s => some (s.data.map (fun ch => .str (String.mk [ch])))
  | _ => none

/-! ## The API endpoints -/

def authUrl : String := "https://api.pinata.cloud/data/testAuthentication"

def uploadUrl : String := "https://uploads.pinata.cloud/v3/files"

def listUrl : String := "https://api.pinata.cloud/v3/files"

/-- URL `f"https://api.pinata.cloud/v3/files/..."` for a file id. -/
def fileUrl (file_id : String) : String :=
  "https://api.pinata.cloud/v3/files/" ++ file_id

/-! ## The renderers (Presenter) -/

/-- Row `[file['id'], file['name'], file['cid'], file['group_id']]` for one
record: `none` models the `KeyError`/`TypeError` raised when a key is
missing or the record is not a dict. -/
def fileRow : JVal → Option (List JVal)
  | .obj f =>
    match f.lookup "id", f.lookup "name", f.lookup "cid",
        f.lookup "group_id" with
    | some i, some n, some c, some g => some [i, n, c, g]
    | _, _, _, _ => none
  | _ => none

/-- The list-comprehension body of `display_pinata_files` (lines 240-243):
rows in input order, aborted by the first raising record. -/
def rowsOf : List JVal → Option (List (List JVal))
  | [] => some []
  | f :: fs =>
    match fileRow f, rowsOf fs with
    | some r, some rs => some (r :: rs)
    | _, _ => none

/-- Embeds `display_pinata_files(files_data)` (lines 230-246): the table handed
to `tabulate`, or `none` when building the rows raises. -/
def display_pinata_files (files_data : JVal) : Option Msg :=
  match pyIter files_data with
  | none => none
  | some l =>
    match rowsOf l with
    | some rows => some (.table ["ID", "Name", "CID", "Group ID"] rows)
    | none => none

/-- Python `file_data.get(k, "N/A")`: the stored value when the key is present
(even when it is `null`), the placeholder string otherwise. -/
def fieldOr (d : JFields) (k : String) : JVal :=
  (d.lookup k).getD (.str "N/A")

/-- The `table_data` rows of `get_pinata_file_details` (lines 280-294):
eight fixed field/value rows, then a Keyvalues row exactly when
`file_data.get("keyvalues", {})` is truthy.  (`str(keyvalues)` is kept as
the structured value; its text rendering is elided.) -/
def detailRows (d : JFields) : List (String × JVal) :=
  let base : List (String × JVal) :=
    [("ID", fieldOr d "id"),
     ("Name", fieldOr d "name"),
     ("CID", fieldOr d "cid"),
     ("Size (bytes)", fieldOr d "size"),
     ("Number of Files", fieldOr d "number_of_files"),
     ("MIME Type", fieldOr d "mime_type"),
     ("Group ID", fieldOr d "group_id"),
     ("Created At", fieldOr d "created_at")]
  let keyvalues : JVal := (d.lookup "keyvalues").getD (.obj .nil)
  if pyTruthy keyvalues then base ++ [("Keyvalues", keyvalues)] else base

/-! ## The six credential-requiring operations

Each operation takes the filesystem, an injected read-fault flag for the
credential file, and the `HttpResult` its single `requests` call would
encounter; `delete` additionally takes the confirmation line typed on
stdin and `upload` whether the local file to upload exists. -/

/-- Embeds `test_pinata_authentication()` (lines 82-106). -/
def test_pinata_authentication (fs : FS) (ioFault : Bool)
    (http : HttpResult) : Run :=
  if tokenFalsy (read_token fs ioFault) then
    ⟨[.text tokenSetupMsg], [], .exited 1⟩
  else
    let call := NetCall.get authUrl
    match http with
    | .transportError => ⟨[], [call], .returned (some genericErrorVal)⟩
    | .response status body =>
      if raisesForStatus status then
        ⟨[], [call], .returned (some httpErrorVal)⟩
      else
        match body with
        | none => ⟨[], [call], .returned (some genericErrorVal)⟩
        | some j =>
          match j with
          | .obj fields =>
            -- `print(response.json().get('message'))`, then return the json
            ⟨[.pyval ((fields.lookup "message").getD .null)], [call],
              .returned (some j)⟩
          | _ =>
            -- `.get` on a non-dict json value raises, caught by the
            -- catch-all which returns the generic error dict
            ⟨[], [call], .returned (some genericErrorVal)⟩

/-- Embeds `upload_file_to_pinata(file_path)` (lines 109-151).  The
`open(file_path, 'rb')` at line 130 sits OUTSIDE the try/except: when the
local file cannot be opened, the `FileNotFoundError` propagates uncaught. -/
def upload_file_to_pinata (fs : FS) (ioFault : Bool) (filePath : String)
    (fileExists : Bool) (http : HttpResult) : Run :=
  if tokenFalsy (read_token fs ioFault) then
    ⟨[.text tokenSetupMsg], [], .exited 1⟩
  else if !fileExists then
    ⟨[], [], .crashed⟩
  else
    let name := basename filePath
    let call := NetCall.post uploadUrl name name
    let uploading := Msg.text "File Uploading....."
    let uploaded := Msg.text "File Uploaded Successfully, use -l to list new files"
    match http with
    | .transportError =>
      ⟨[uploading, .pyval genericErrorVal], [call], .returned none⟩
    | .response status body =>
      if raisesForStatus status then
        ⟨[uploading, .pyval httpErrorVal], [call], .returned none⟩
      else
        match body with
        | some j => ⟨[uploading, uploaded], [call], .returned (some j)⟩
        | none =>
          -- success printed first (line 143), then `response.json()`
          -- raises and the catch-all prints the generic error dict
          ⟨[uploading, uploaded, .pyval genericErrorVal], [call], .returned none⟩

/-- The `'data' in result and 'files' in result['data']` branch of
`get_pinata_files` (lines 217-222), evaluated on the parsed body `j`:
`inl files` when both checks pass and the `files` value is extracted,
`inr true` when a check evaluates to `False` (the `else` printing
`Error: result`), `inr false` when a subscript or membership test raises
(caught by the enclosing except). -/
def listDataFiles (j : JVal) : JVal ⊕ Bool :=
  match pyContains "data" j with
  | none => .inr false
  | some false => .inr true
  | some true =>
    match j with
    | .obj fields =>
      match fields.lookup "data" with
      | some d =>
        match pyContains "files" d with
        | none => .inr false
        | some false => .inr true
        | some true =>
          match d with
          | .obj dfields =>
            match dfields.lookup "files" with
            | some files => .inl files
            | none => .inr false
          | _ => .inr false -- `d['files']` on a list/str raises TypeError
      | none => .inr false
    | _ => .inr false -- `result['data']` subscripting a list/str raises

/-- Embeds `get_pinata_files()` (lines 197-227). -/
def get_pinata_files (fs : FS) (ioFault : Bool) (http : HttpResult) : Run :=
  if tokenFalsy (read_token fs ioFault) then
    ⟨[.text tokenSetupMsg], [], .exited 1⟩
  else
    let call := NetCall.get listUrl
    match http with
    | .transportError => ⟨[], [call], .returned (some genericErrorVal)⟩
    | .response status body =>
      if raisesForStatus status then
        ⟨[], [call], .returned (some httpErrorVal)⟩
      else
        match body with
        | none => ⟨[], [call], .returned (some genericErrorVal)⟩
        | some j =>
          match listDataFiles j with
          | .inl files =>
            match display_pinata_files files with
            | some tbl => ⟨[tbl], [call], .returned (some j)⟩
            | none => ⟨[], [call], .returned (some genericErrorVal)⟩
          | .inr true => ⟨[.errorWith j], [call], .returned (some j)⟩
          | .inr false => ⟨[], [call], .returned (some genericErrorVal)⟩

/-- Embeds `get_pinata_file_details(file_id)` (lines 249-302). -/
def get_pinata_file_details (file_id : String) (fs : FS) (ioFault : Bool)
    (http : HttpResult) : Run :=
  if tokenFalsy (read_token fs ioFault) then
    ⟨[.text tokenSetupMsg], [], .exited 1⟩
  else
    let call := NetCall.get (fileUrl file_id)
    match http with
    | .transportError => ⟨[.text "An error occurred"], [call], .returned none⟩
    | .response status body =>
      if raisesForStatus status then
        ⟨[.text "HTTP error occurred"], [call], .returned none⟩
      else
        match body with
        | none => ⟨[.text "An error occurred"], [call], .returned none⟩
        | some j =>
          match j with
          | .obj fields =>
            -- `file_data = response.json().get('data', {})`
            match (fields.lookup "data").getD (.obj .nil) with
            | .obj d =>
              ⟨[.fieldTable (detailRows d)], [call], .returned none⟩
            | _ =>
              -- `file_data.get(...)` on a non-dict raises, caught by
              -- the catch-all which prints the generic error line
              ⟨[.text "An error occurred"], [call], .returned none⟩
          | _ =>
            -- `.get` on a non-dict json value raises, caught likewise
            ⟨[.text "An error occurred"], [call], .returned none⟩

/-- Embeds `update_pinata_file(data)` (lines 305-352).  The spec string is parsed
(lines 316-319) BEFORE the token is read, and the parse is unguarded. -/
def update_pinata_file (data : String) (fs : FS) (ioFault : Bool)
    (http : HttpResult) : Run :=
  match parseUpdateSpec data.data with
  | none => ⟨[], [], .crashed⟩
  | some (fid, nm) =>
    if tokenFalsy (read_token fs ioFault) then
      ⟨[.text tokenSetupMsg], [], .exited 1⟩
    else
      let call := NetCall.put (fileUrl (String.mk fid)) ⟨String.mk nm, .nil⟩
      match http with
      | .transportError => ⟨[.pyval genericErrorVal], [call], .returned none⟩
      | .response status body =>
        if raisesForStatus status then
          ⟨[.pyval httpErrorVal], [call], .returned none⟩
        else
          match body with
          | some j =>
            ⟨[.text "values updated successfully, run -l to check updated values"],
              [call], .returned (some j)⟩
          | none =>
            -- success printed (line 345), then `response.json()` raises
            ⟨[.text "values updated successfully, run -l to check updated values",
                .pyval genericErrorVal], [call], .returned none⟩

/-- The affirmative confirmation tokens (line 370). -/
def confirms : List String := ["y", "yes"]

/-- Embeds `delete_pinata_file(file_id)` (lines 355-397); `stdin` is the line the
user types at the confirmation prompt. -/
def delete_pinata_file (file_id : String) (fs : FS) (ioFault : Bool)
    (stdin : String) (http : HttpResult) : Run :=
  if tokenFalsy (read_token fs ioFault) then
    ⟨[.text tokenSetupMsg], [], .exited 1⟩
  else if stdin = "" then
    ⟨[.text "exiting as there are no inputs, Default is NO"], [], .exited 1⟩
  else if !(confirms.contains (pyLower stdin)) then
    ⟨[.text "User Confirmed NO"], [], .exited 1⟩
  else
    let call := NetCall.delete (fileUrl file_id)
    match http with
    | .transportError => ⟨[.pyval genericErrorVal], [call], .returned none⟩
    | .response status body =>
      if raisesForStatus status then
        ⟨[.pyval httpErrorVal], [call], .returned none⟩
      else if status = 200 then
        ⟨[.text "File deleted successfully"], [call], .returned none⟩
      else
        -- `print(...) if response.status_code == 200 else response.json()`:
        -- the json value is computed and discarded; an invalid body makes
        -- `.json()` raise, caught by the catch-all
        match body with
        | some _ => ⟨[], [call], .returned none⟩
        | none => ⟨[.pyval genericErrorVal], [call], .returned none⟩

/-! ## Sample data for concrete instantiations -/

/-- A filesystem holding a stored credential. -/
def fsWithToken : FS := [(credFilePath, "sample-token")]

/-- The single file record of the spec's mocked listing response. -/
def sampleRecord : JVal :=
  .obj (.cons "id" (.str "1") (.cons "name" (.str "a.txt")
    (.cons "cid" (.str "Qm1") (.cons "group_id" .null .nil))))

/-- A detail record that is missing the `mime_type` field (the spec's
detail-rendering example) and carries no `keyvalues`. -/
def sampleDetail : JFields :=
  .cons "id" (.str "1") (.cons "name" (.str "a.txt")
    (.cons "cid" (.str "Qm1") (.cons "size" (.num 42)
      (.cons "number_of_files" (.num 1) (.cons "group_id" .null
        (.cons "created_at" (.str "2024-10-04") .nil))))))

/-! ## Basic lemmas about the string helpers -/

theorem pySplit_of_not_mem {c : Char} {l : List Char} (h : c ∉ l) :
    pySplit c l = [l] := by
  induction l with
  | nil => rfl
  | cons x xs ih =>
    simp only [List.mem_cons, not_or] at h
    have hx : ¬ (x = c) := fun he => h.1 he.symm
    simp [pySplit, hx, ih h.2]

theorem pySplit_append {c : Char} {a : List Char} (b : List Char)
    (h : c ∉ a) : pySplit c (a ++ c :: b) = a :: pySplit c b := by
  induction a with
  | nil => simp [pySplit]
  | cons x xs ih =>
    simp only [List.mem_cons, not_or] at h
    have hx : ¬ (x = c) := fun he => h.1 he.symm
    simp [pySplit, hx, ih h.2]

theorem JElems.toList_ofList (l : List JVal) :
    (JElems.ofList l).toList = l := by
  induction l with
  | nil => rfl
  | cons v rest ih => simp [JElems.ofList, JElems.toList, ih]

theorem rowsOf_eq_map {l : List JVal}
    (h : ∀ f ∈ l, (fileRow f).isSome = true) :
    rowsOf l = some (l.map (fun f => (fileRow f).getD [])) := by
  induction l with
  | nil => rfl
  | cons f fs ih =>
    obtain ⟨r, hr⟩ :=
      Option.isSome_iff_exists.mp (h f (List.mem_cons_self f fs))
    have hfs := ih (fun g hg => h g (List.mem_cons_of_mem f hg))
    simp [rowsOf, hr, hfs]

/-! ## The claims -/

/-- C1: For every operation other than setup (authtest, upload, list,
get-details, update, delete), if the stored credential is absent or the
credential file is empty, the operation exits the process with a non-zero
status and performs zero network calls.  (A malformed update spec makes
`update_pinata_file` crash in its unguarded parse before the credential
check; an uncaught exception also terminates the interpreter with a
non-zero status, and still with zero network calls.) -/
theorem C1_missing_credential_fatal_no_network
    (fs : FS) (ioFault : Bool) (http : HttpResult)
    (filePath fid fid2 spec stdin : String) (fileExists : Bool)
    (h : tokenFalsy (read_token fs ioFault) = true) :
    ((test_pinata_authentication fs ioFault http).net = [] ∧
      (test_pinata_authentication fs ioFault http).out.nonZeroExit = true) ∧
    ((upload_file_to_pinata fs ioFault filePath fileExists http).net = [] ∧
      (upload_file_to_pinata fs ioFault filePath fileExists http).out.nonZeroExit = true) ∧
    ((get_pinata_files fs ioFault http).net = [] ∧
      (get_pinata_files fs ioFault http).out.nonZeroExit = true) ∧
    ((get_pinata_file_details fid fs ioFault http).net = [] ∧
      (get_pinata_file_details fid fs ioFault http).out.nonZeroExit = true) ∧
    ((update_pinata_file spec fs ioFault http).net = [] ∧
      (update_pinata_file spec fs ioFault http).out.nonZeroExit = true) ∧
    ((delete_pinata_file fid2 fs ioFault stdin http).net = [] ∧
      (delete_pinata_file fid2 fs ioFault stdin http).out.nonZeroExit = true) := by
  refine ⟨?_, ?_, ?_, ?_, ?_, ?_⟩
  · simp [test_pinata_authentication, h, Outcome.nonZeroExit]
  · simp [upload_file_to_pinata, h, Outcome.nonZeroExit]
  · simp [get_pinata_files, h, Outcome.nonZeroExit]
  · simp [get_pinata_file_details, h, Outcome.nonZeroExit]
  · cases hp : parseUpdateSpec spec.data with
    | none => simp [update_pinata_file, hp, Outcome.nonZeroExit]
    | some p =>
      obtain ⟨pf, pn⟩ := p
      simp [update_pinata_file, hp, h, Outcome.nonZeroExit]
  · simp [delete_pinata_file, h, Outcome.nonZeroExit]

/-- Witness for C1 at the empty filesystem. -/
theorem C1_missing_credential_fatal_no_network_witness :
    tokenFalsy (read_token [] false) = true ∧
    (((test_pinata_authentication [] false (.response 200 none)).net = [] ∧
      (test_pinata_authentication [] false (.response 200 none)).out.nonZeroExit = true) ∧
    ((upload_file_to_pinata [] false "a.txt" true (.response 200 none)).net = [] ∧
      (upload_file_to_pinata [] false "a.txt" true (.response 200 none)).out.nonZeroExit = true) ∧
    ((get_pinata_files [] false (.response 200 none)).net = [] ∧
      (get_pinata_files [] false (.response 200 none)).out.nonZeroExit = true) ∧
    ((get_pinata_file_details "id1" [] false (.response 200 none)).net = [] ∧
      (get_pinata_file_details "id1" [] false (.response 200 none)).out.nonZeroExit = true) ∧
    ((update_pinata_file "id=1,name=b" [] false (.response 200 none)).net = [] ∧
      (update_pinata_file "id=1,name=b" [] false (.response 200 none)).out.nonZeroExit = true) ∧
    ((delete_pinata_file "id2" [] false "y" (.response 200 none)).net = [] ∧
      (delete_pinata_file "id2" [] false "y" (.response 200 none)).out.nonZeroExit = true)) :=
  ⟨by decide,
    C1_missing_credential_fatal_no_network [] false (.response 200 none)
      "a.txt" "id1" "id2" "id=1,name=b" "y" true (by decide)⟩

/-- C7: Loading the credential when the credential file does not exist or
cannot be read returns an explicit "absent" signal (`none`, Python
`False`) to the caller; both exception handlers in `read_token` return
`False`, so the embedded function is total and never raises. -/
theorem C7_read_token_absent_signal (fs : FS) (ioFault : Bool) :
    (fsRead fs credFilePath = none → read_token fs ioFault = none) ∧
    (ioFault = true → read_token fs ioFault = none) := by
  constructor
  · intro h
    cases ioFault <;> simp [read_token, openCredFile, h]
  · intro h
    simp [read_token, openCredFile, h]

/-- Witness for C7 at the empty filesystem and at an injected I/O fault. -/
theorem C7_read_token_absent_signal_witness :
    (fsRead [] credFilePath = none ∧ read_token [] false = none) ∧
    read_token fsWithToken true = none :=
  ⟨⟨by decide, (C7_read_token_absent_signal [] false).1 (by decide)⟩,
    (C7_read_token_absent_signal fsWithToken true).2 rfl⟩

/-- C8: For every token string and prior filesystem, saving the token via
the credential store (as `setup_pinata_api` does, under the file name
`.credentials`) and then loading it returns the exact original string. -/
theorem C8_credential_round_trip (fs : FS) (token : String) :
    read_token (save_token_to_file fs ".credentials" token true).2 false =
      some token := by
  simp [read_token, openCredFile, save_token_to_file, fsWrite, fsRead,
    credFilePath, List.lookup]

/-- With the token present and the confirmation affirmative, the DELETE
call is attempted whatever the network then does. -/
theorem delete_net_confirmed (fid : String) (fs : FS) (ioFault : Bool)
    (stdin : String) (http : HttpResult)
    (htok : tokenFalsy (read_token fs ioFault) = false)
    (hne : ¬ (stdin = ""))
    (hc : pyLower stdin ∈ confirms) :
    (delete_pinata_file fid fs ioFault stdin http).net =
      [NetCall.delete (fileUrl fid)] := by
  rcases http with _ | ⟨status, body⟩
  · simp [delete_pinata_file, htok, hne, hc]
  · rcases body with _ | j <;>
      simp [delete_pinata_file, htok, hne, hc] <;>
      split_ifs <;> rfl

/-- C2: the function `delete_pinata_file` issues the DELETE network call if and only if
the interactive confirmation input case-insensitively equals "y" or "yes";
for every other input, including the empty string, "N", "no", and "x", it
makes no network call and exits the process with a non-zero status. -/
theorem C2_delete_confirmation_gate
    (fs : FS) (ioFault : Bool) (fid stdin : String) (http : HttpResult)
    (htok : tokenFalsy (read_token fs ioFault) = false) :
    ((delete_pinata_file fid fs ioFault stdin http).net =
        [NetCall.delete (fileUrl fid)] ↔
      (pyLower stdin = "y" ∨ pyLower stdin = "yes")) ∧
    (¬ (pyLower stdin = "y" ∨ pyLower stdin = "yes") →
      (delete_pinata_file fid fs ioFault stdin http).net = [] ∧
      (delete_pinata_file fid fs ioFault stdin http).out = .exited 1) := by
  by_cases hc : pyLower stdin = "y" ∨ pyLower stdin = "yes"
  · have hmem : pyLower stdin ∈ confirms := by
      rcases hc with h | h <;> simp [confirms, h]
    have hne : ¬ (stdin = "") := by
      intro he
      subst he
      revert hc
      decide
    have hnet := delete_net_confirmed fid fs ioFault stdin http htok hne hmem
    exact ⟨⟨fun _ => hc, fun _ => hnet⟩, fun hn => absurd hc hn⟩
  · have hrun : (delete_pinata_file fid fs ioFault stdin http).net = [] ∧
        (delete_pinata_file fid fs ioFault stdin http).out = .exited 1 := by
      by_cases hne : stdin = ""
      · subst hne
        simp [delete_pinata_file, htok]
      · have hnot : pyLower stdin ∉ confirms := by
          intro hm
          exact hc (by simpa [confirms] using hm)
        simp [delete_pinata_file, htok, hne, hnot]
    exact ⟨by simp [hrun.1, hc], fun _ => hrun⟩

/-- Witness for C2 at the stored credential, input "Y" (affirmative) and
input "no" (declining). -/
theorem C2_delete_confirmation_gate_witness :
    tokenFalsy (read_token fsWithToken false) = false ∧
    ((delete_pinata_file "f1" fsWithToken false "Y"
        (.response 200 (some .null))).net =
      [NetCall.delete (fileUrl "f1")]) ∧
    ((delete_pinata_file "f1" fsWithToken false "no"
        (.response 200 (some .null))).net = [] ∧
      (delete_pinata_file "f1" fsWithToken false "no"
        (.response 200 (some .null))).out = .exited 1) :=
  ⟨by decide,
    (C2_delete_confirmation_gate fsWithToken false "f1" "Y"
        (.response 200 (some .null)) (by decide)).1.mpr (by decide),
    (C2_delete_confirmation_gate fsWithToken false "f1" "no"
        (.response 200 (some .null)) (by decide)).2 (by decide)⟩

/-- C10: with the deletion confirmed, the success line "File deleted
successfully" is printed if and only if the status code is exactly 200;
for another non-raising status the body is parsed as JSON instead
(nothing printed when it parses, the generic error dict printed when it
does not). -/
theorem C10_delete_success_message_iff_200
    (fs : FS) (ioFault : Bool) (fid stdin : String) (status : Nat)
    (body : Option JVal)
    (htok : tokenFalsy (read_token fs ioFault) = false)
    (hconf : confirms.contains (pyLower stdin) = true) :
    ((Msg.text "File deleted successfully") ∈
        (delete_pinata_file fid fs ioFault stdin (.response status body)).prints ↔
      status = 200) ∧
    (¬ (status = 200) → raisesForStatus status = false → body = none →
      (delete_pinata_file fid fs ioFault stdin (.response status body)).prints =
        [.pyval genericErrorVal]) ∧
    (¬ (status = 200) → raisesForStatus status = false →
      ∀ j : JVal, body = some j →
      (delete_pinata_file fid fs ioFault stdin (.response status body)).prints =
        []) := by
  have hne : ¬ (stdin = "") := by
    intro he
    subst he
    revert hconf
    decide
  have hmem : pyLower stdin ∈ confirms := by simpa using hconf
  by_cases hr : raisesForStatus status = true
  · have h200 : ¬ (status = 200) := by
      intro he
      subst he
      exact absurd hr (by decide)
    refine ⟨?_, ?_, ?_⟩
    · simp [delete_pinata_file, htok, hne, hmem, hr, h200]
    · intro _ hr' _
      exact absurd hr (by simp [hr'])
    · intro _ hr' _ _
      exact absurd hr (by simp [hr'])
  · have hr' : raisesForStatus status = false := by simpa using hr
    by_cases h200 : status = 200
    · subst h200
      refine ⟨?_, ?_, ?_⟩
      · simp [delete_pinata_file, htok, hne, hmem, hr']
      · intro h
        exact absurd rfl h
      · intro h
        exact absurd rfl h
    · rcases body with _ | j
      · refine ⟨?_, ?_, ?_⟩
        · simp [delete_pinata_file, htok, hne, hmem, hr', h200]
        · intro _ _ _
          simp [delete_pinata_file, htok, hne, hmem, hr', h200]
        · intro _ _ j hj
          cases hj
      · refine ⟨?_, ?_, ?_⟩
        · simp [delete_pinata_file, htok, hne, hmem, hr', h200]
        · intro _ _ hb
          cases hb
        · intro _ _ j hj
          simp [delete_pinata_file, htok, hne, hmem, hr', h200]

/-- Witness for C10 with status 200 and with status 204 on an empty
(non-JSON) body. -/
theorem C10_delete_success_message_iff_200_witness :
    ((Msg.text "File deleted successfully") ∈
        (delete_pinata_file "f1" fsWithToken false "y"
          (.response 200 (some .null))).prints) ∧
    ((delete_pinata_file "f1" fsWithToken false "y"
        (.response 204 none)).prints = [.pyval genericErrorVal]) :=
  ⟨(C10_delete_success_message_iff_200 fsWithToken false "f1" "y" 200
      (some .null) (by decide) (by decide)).1.mpr rfl,
    (C10_delete_success_message_iff_200 fsWithToken false "f1" "y" 204
      none (by decide) (by decide)).2.1 (by decide) (by decide) rfl⟩

/-- With the spec string parsed to `(fid, nm)` and the token present, the
PUT call is attempted with exactly that resource id and new name, and an
empty keyvalues map, whatever the network then does. -/
theorem update_net_of_parse {spec : String} {fid nm : List Char}
    (hp : parseUpdateSpec spec.data = some (fid, nm))
    (fs : FS) (ioFault : Bool) (http : HttpResult)
    (htok : tokenFalsy (read_token fs ioFault) = false) :
    (update_pinata_file spec fs ioFault http).net =
      [NetCall.put (fileUrl (String.mk fid)) ⟨String.mk nm, .nil⟩] := by
  rcases http with _ | ⟨status, body⟩
  · simp [update_pinata_file, hp, htok]
  · rcases body with _ | j <;>
      simp [update_pinata_file, hp, htok] <;>
      split_ifs <;> rfl

/-- C4: the spec string "id=42,name=report.pdf" makes `update_pinata_file`
issue the PUT against resource id "42" with body name "report.pdf" and an
empty keyvalues map; any spec string containing no comma raises an
unhandled parsing fault (and, in particular, attempts no network call). -/
theorem C4_update_spec_parse
    (fs : FS) (ioFault : Bool) (http : HttpResult) (spec : String)
    (htok : tokenFalsy (read_token fs ioFault) = false)
    (hnc : ',' ∉ spec.data) :
    (update_pinata_file "id=42,name=report.pdf" fs ioFault http).net =
      [NetCall.put (fileUrl "42") ⟨"report.pdf", JFields.nil⟩] ∧
    (update_pinata_file spec fs ioFault http).out = .crashed ∧
    (update_pinata_file spec fs ioFault http).net = [] := by
  refine ⟨?_, ?_⟩
  · have h := @update_net_of_parse "id=42,name=report.pdf" "42".data
      "report.pdf".data (by decide) fs ioFault http htok
    rw [show String.mk "42".data = "42" from rfl,
      show String.mk "report.pdf".data = "report.pdf" from rfl] at h
    exact h
  · have hp : parseUpdateSpec spec.data = none := by
      unfold parseUpdateSpec
      rw [pySplit_of_not_mem hnc]
    constructor <;> simp [update_pinata_file, hp]

/-- Witness for C4 at the stored credential and the comma-free spec
string "id42". -/
theorem C4_update_spec_parse_witness :
    ((update_pinata_file "id=42,name=report.pdf" fsWithToken false
        (.response 200 (some .null))).net =
      [NetCall.put (fileUrl "42") ⟨"report.pdf", JFields.nil⟩]) ∧
    ((update_pinata_file "id42" fsWithToken false
        (.response 200 (some .null))).out = .crashed ∧
      (update_pinata_file "id42" fsWithToken false
        (.response 200 (some .null))).net = []) :=
  ⟨(C4_update_spec_parse fsWithToken false (.response 200 (some .null))
      "id42" (by decide) (by decide)).1,
    (C4_update_spec_parse fsWithToken false (.response 200 (some .null))
      "id42" (by decide) (by decide)).2⟩

/-- C9: the update-spec parser is purely positional — the key names before
"=" are ignored.  For every input of the shape `<k1>=<v1>,<k2>=<v2>`
(with no stray separators inside the pieces) the PUT goes to resource id
`<v1>` with new name `<v2>`; in particular "name=a,id=b" is accepted and
updates resource "a" with name "b". -/
theorem C9_update_parser_positional
    (k1 v1 k2 v2 : List Char)
    (h1 : '=' ∉ k1) (h2 : '=' ∉ v1) (h3 : '=' ∉ k2) (h4 : '=' ∉ v2)
    (g1 : ',' ∉ k1) (g2 : ',' ∉ v1) (g3 : ',' ∉ k2) (g4 : ',' ∉ v2)
    (fs : FS) (ioFault : Bool) (http : HttpResult)
    (htok : tokenFalsy (read_token fs ioFault) = false) :
    parseUpdateSpec ((k1 ++ '=' :: v1) ++ ',' :: (k2 ++ '=' :: v2)) =
      some (v1, v2) ∧
    (update_pinata_file
        (String.mk ((k1 ++ '=' :: v1) ++ ',' :: (k2 ++ '=' :: v2)))
        fs ioFault http).net =
      [NetCall.put (fileUrl (String.mk v1)) ⟨String.mk v2, JFields.nil⟩] ∧
    (update_pinata_file "name=a,id=b" fs ioFault http).net =
      [NetCall.put (fileUrl "a") ⟨"b", JFields.nil⟩] := by
  have hfst : ',' ∉ (k1 ++ '=' :: v1) := by
    intro hmem
    rcases List.mem_append.mp hmem with h | h
    · exact g1 h
    · rcases List.mem_cons.mp h with h | h
      · exact absurd h (by decide)
      · exact g2 h
  have hsnd : ',' ∉ (k2 ++ '=' :: v2) := by
    intro hmem
    rcases List.mem_append.mp hmem with h | h
    · exact g3 h
    · rcases List.mem_cons.mp h with h | h
      · exact absurd h (by decide)
      · exact g4 h
  have e0 : pySplit ',' ((k1 ++ '=' :: v1) ++ ',' :: (k2 ++ '=' :: v2)) =
      [k1 ++ '=' :: v1, k2 ++ '=' :: v2] := by
    rw [pySplit_append _ hfst, pySplit_of_not_mem hsnd]
  have e1 : pySplit '=' (k1 ++ '=' :: v1) = [k1, v1] := by
    rw [pySplit_append _ h1, pySplit_of_not_mem h2]
  have e2 : pySplit '=' (k2 ++ '=' :: v2) = [k2, v2] := by
    rw [pySplit_append _ h3, pySplit_of_not_mem h4]
  have e0' : pySplit ',' (k1 ++ '=' :: (v1 ++ ',' :: (k2 ++ '=' :: v2))) =
      [k1 ++ '=' :: v1, k2 ++ '=' :: v2] := by
    rw [show k1 ++ '=' :: (v1 ++ ',' :: (k2 ++ '=' :: v2)) =
        (k1 ++ '=' :: v1) ++ ',' :: (k2 ++ '=' :: v2) by simp]
    exact e0
  have hparse : parseUpdateSpec ((k1 ++ '=' :: v1) ++ ',' :: (k2 ++ '=' :: v2)) =
      some (v1, v2) := by
    simp [parseUpdateSpec, e0, e0', e1, e2]
  refine ⟨hparse, ?_, ?_⟩
  · have hdata : (String.mk ((k1 ++ '=' :: v1) ++ ',' :: (k2 ++ '=' :: v2))).data =
        (k1 ++ '=' :: v1) ++ ',' :: (k2 ++ '=' :: v2) := rfl
    exact update_net_of_parse (by rw [hdata, hparse]) fs ioFault http htok
  · have h := @update_net_of_parse "name=a,id=b" "a".data "b".data
      (by decide) fs ioFault http htok
    rw [show String.mk "a".data = "a" from rfl,
      show String.mk "b".data = "b" from rfl] at h
    exact h

/-- Witness for C9 at the claim's example "name=a,id=b", i.e. the pieces
k1 = "name", v1 = "a", k2 = "id", v2 = "b". -/
theorem C9_update_parser_positional_witness :
    parseUpdateSpec (("name".data ++ '=' :: "a".data) ++
        ',' :: ("id".data ++ '=' :: "b".data)) =
      some ("a".data, "b".data) ∧
    (update_pinata_file "name=a,id=b" fsWithToken false
        (.response 200 (some .null))).net =
      [NetCall.put (fileUrl "a") ⟨"b", JFields.nil⟩] :=
  ⟨(C9_update_parser_positional "name".data "a".data "id".data "b".data
      (by decide) (by decide) (by decide) (by decide)
      (by decide) (by decide) (by decide) (by decide)
      fsWithToken false (.response 200 (some .null)) (by decide)).1,
    (C9_update_parser_positional "name".data "a".data "id".data "b".data
      (by decide) (by decide) (by decide) (by decide)
      (by decide) (by decide) (by decide) (by decide)
      fsWithToken false (.response 200 (some .null)) (by decide)).2.2⟩

/-- C5: for every list of file records, the file-list renderer projects
each record to exactly the columns ID, Name, CID, Group ID (in that
header order) and emits the rows in the same order as the input list
(expressed as a `map` over the input); in particular the spec's single
mocked record renders to the row ["1", "a.txt", "Qm1", null]. -/
theorem C5_file_list_rendering
    (records : List JVal)
    (h : ∀ f ∈ records, (fileRow f).isSome = true) :
    display_pinata_files (.arr (.ofList records)) =
      some (.table ["ID", "Name", "CID", "Group ID"]
        (records.map (fun f => (fileRow f).getD []))) ∧
    display_pinata_files (.arr (.ofList [sampleRecord])) =
      some (.table ["ID", "Name", "CID", "Group ID"]
        [[.str "1", .str "a.txt", .str "Qm1", .null]]) := by
  constructor
  · simp [display_pinata_files, pyIter, JElems.toList_ofList, rowsOf_eq_map h]
  · decide

/-- Witness for C5 at the spec's single mocked record. -/
theorem C5_file_list_rendering_witness :
    display_pinata_files (.arr (.ofList [sampleRecord])) =
      some (.table ["ID", "Name", "CID", "Group ID"]
        [[.str "1", .str "a.txt", .str "Qm1", .null]]) :=
  (C5_file_list_rendering [sampleRecord] (by decide)).2

/-- C6 counterexample: at a concrete detail record the fourth row of the
rendered table is labelled "Size (bytes)", and no row is labelled "Size"
as the claim's fixed row list states. -/
theorem C6_size_label_counterexample :
    (detailRows sampleDetail).map Prod.fst =
      ["ID", "Name", "CID", "Size (bytes)", "Number of Files", "MIME Type",
        "Group ID", "Created At"] ∧
    ¬ (("Size" : String) ∈ (detailRows sampleDetail).map Prod.fst) := by
  decide

/-- C6 (amended): for every detail record, the renderer produces the
fixed, ordered rows labelled ID, Name, CID, Size (bytes), Number of
Files, MIME Type, Group ID, Created At — the size row is labelled
"Size (bytes)", not "Size" — substituting the placeholder "N/A" for each
individually missing field while still rendering all supplied fields, and
appends a Keyvalues row exactly when the keyvalues metadata map is
non-empty. -/
theorem C6_detail_rendering_amended (d : JFields) :
    detailRows d =
      [("ID", fieldOr d "id"), ("Name", fieldOr d "name"),
        ("CID", fieldOr d "cid"), ("Size (bytes)", fieldOr d "size"),
        ("Number of Files", fieldOr d "number_of_files"),
        ("MIME Type", fieldOr d "mime_type"),
        ("Group ID", fieldOr d "group_id"),
        ("Created At", fieldOr d "created_at")] ++
      (if pyTruthy ((d.lookup "keyvalues").getD (.obj .nil)) then
        [("Keyvalues", (d.lookup "keyvalues").getD (.obj .nil))] else []) ∧
    (∀ k : String, d.lookup k = none → fieldOr d k = .str "N/A") ∧
    (∀ k : String, ∀ v : JVal, d.lookup k = some v → fieldOr d k = v) ∧
    (∀ kv : JFields, d.lookup "keyvalues" = some (.obj kv) →
      ((("Keyvalues" : String) ∈ (detailRows d).map Prod.fst) ↔
        ¬ (kv = .nil))) ∧
    (d.lookup "keyvalues" = none →
      ¬ (("Keyvalues" : String) ∈ (detailRows d).map Prod.fst)) := by
  refine ⟨?_, ?_, ?_, ?_, ?_⟩
  · by_cases hkv : pyTruthy ((d.lookup "keyvalues").getD (.obj .nil)) = true <;>
      simp [detailRows, hkv]
  · intro k hk
    simp [fieldOr, hk]
  · intro k v hk
    simp [fieldOr, hk]
  · intro kv hkv
    by_cases hnil : kv = JFields.nil
    · subst hnil
      simp [detailRows, hkv, pyTruthy]
    · have ht : pyTruthy (JVal.obj kv) = true := by simp [pyTruthy, hnil]
      simp [detailRows, hkv, ht, hnil]
  · intro hk
    simp [detailRows, hk, pyTruthy]

/-- Witness for C6 at the spec's detail record missing `mime_type`. -/
theorem C6_detail_rendering_amended_witness :
    fieldOr sampleDetail "mime_type" = .str "N/A" ∧
    fieldOr sampleDetail "name" = .str "a.txt" ∧
    ¬ (("Keyvalues" : String) ∈ (detailRows sampleDetail).map Prod.fst) :=
  ⟨(C6_detail_rendering_amended sampleDetail).2.1 "mime_type" (by decide),
    (C6_detail_rendering_amended sampleDetail).2.2.1 "name" (.str "a.txt")
      (by decide),
    (C6_detail_rendering_amended sampleDetail).2.2.2.2 (by decide)⟩

/-! ## Containment of faults (C3): helper lemmas per operation -/

theorem auth_not_crashed (fs : FS) (ioFault : Bool) (http : HttpResult) :
    (test_pinata_authentication fs ioFault http).out ≠ .crashed := by
  unfold test_pinata_authentication
  repeat' split
  all_goals simp_all

theorem upload_not_crashed (fs : FS) (ioFault : Bool) (filePath : String)
    (http : HttpResult) :
    (upload_file_to_pinata fs ioFault filePath true http).out ≠ .crashed := by
  unfold upload_file_to_pinata
  repeat' split
  all_goals simp_all

theorem list_not_crashed (fs : FS) (ioFault : Bool) (http : HttpResult) :
    (get_pinata_files fs ioFault http).out ≠ .crashed := by
  unfold get_pinata_files
  repeat' split
  all_goals simp_all

theorem details_not_crashed (fid : String) (fs : FS) (ioFault : Bool)
    (http : HttpResult) :
    (get_pinata_file_details fid fs ioFault http).out ≠ .crashed := by
  unfold get_pinata_file_details
  repeat' split
  all_goals simp_all

theorem update_not_crashed (spec : String) (fs : FS) (ioFault : Bool)
    (http : HttpResult) (hp : (parseUpdateSpec spec.data).isSome = true) :
    (update_pinata_file spec fs ioFault http).out ≠ .crashed := by
  obtain ⟨⟨fid, nm⟩, hp'⟩ := Option.isSome_iff_exists.mp hp
  unfold update_pinata_file
  rw [hp']
  repeat' split
  all_goals simp_all

theorem delete_not_crashed (fid : String) (fs : FS) (ioFault : Bool)
    (stdin : String) (http : HttpResult) :
    (delete_pinata_file fid fs ioFault stdin http).out ≠ .crashed := by
  unfold delete_pinata_file
  repeat' split
  all_goals simp_all

theorem auth_reports_failure (fs : FS) (ioFault : Bool) (http : HttpResult)
    (htok : tokenFalsy (read_token fs ioFault) = false)
    (hf : http.isFailure = true) :
    reportsFailure (test_pinata_authentication fs ioFault http) = true := by
  rcases http with _ | ⟨status, body⟩
  · simp [test_pinata_authentication, htok, reportsFailure]
  · have hr : raisesForStatus status = true := by
      simpa [HttpResult.isFailure] using hf
    simp [test_pinata_authentication, htok, hr, reportsFailure]

theorem upload_reports_failure (fs : FS) (ioFault : Bool) (filePath : String)
    (http : HttpResult)
    (htok : tokenFalsy (read_token fs ioFault) = false)
    (hf : http.isFailure = true) :
    reportsFailure (upload_file_to_pinata fs ioFault filePath true http) =
      true := by
  rcases http with _ | ⟨status, body⟩
  · simp [upload_file_to_pinata, htok, reportsFailure]
  · have hr : raisesForStatus status = true := by
      simpa [HttpResult.isFailure] using hf
    simp [upload_file_to_pinata, htok, hr, reportsFailure]

theorem list_reports_failure (fs : FS) (ioFault : Bool) (http : HttpResult)
    (htok : tokenFalsy (read_token fs ioFault) = false)
    (hf : http.isFailure = true) :
    reportsFailure (get_pinata_files fs ioFault http) = true := by
  rcases http with _ | ⟨status, body⟩
  · simp [get_pinata_files, htok, reportsFailure]
  · have hr : raisesForStatus status = true := by
      simpa [HttpResult.isFailure] using hf
    simp [get_pinata_files, htok, hr, reportsFailure]

theorem details_reports_failure (fid : String) (fs : FS) (ioFault : Bool)
    (http : HttpResult)
    (htok : tokenFalsy (read_token fs ioFault) = false)
    (hf : http.isFailure = true) :
    reportsFailure (get_pinata_file_details fid fs ioFault http) = true := by
  rcases http with _ | ⟨status, body⟩
  · simp [get_pinata_file_details, htok, reportsFailure]
  · have hr : raisesForStatus status = true := by
      simpa [HttpResult.isFailure] using hf
    simp [get_pinata_file_details, htok, hr, reportsFailure]

theorem update_reports_failure (spec : String) (fs : FS) (ioFault : Bool)
    (http : HttpResult)
    (htok : tokenFalsy (read_token fs ioFault) = false)
    (hp : (parseUpdateSpec spec.data).isSome = true)
    (hf : http.isFailure = true) :
    reportsFailure (update_pinata_file spec fs ioFault http) = true := by
  obtain ⟨⟨fid, nm⟩, hp'⟩ := Option.isSome_iff_exists.mp hp
  rcases http with _ | ⟨status, body⟩
  · simp [update_pinata_file, hp', htok, reportsFailure]
  · have hr : raisesForStatus status = true := by
      simpa [HttpResult.isFailure] using hf
    simp [update_pinata_file, hp', htok, hr, reportsFailure]

theorem delete_reports_failure (fid : String) (fs : FS) (ioFault : Bool)
    (stdin : String) (http : HttpResult)
    (htok : tokenFalsy (read_token fs ioFault) = false)
    (hne : ¬ (stdin = "")) (hmem : pyLower stdin ∈ confirms)
    (hf : http.isFailure = true) :
    reportsFailure (delete_pinata_file fid fs ioFault stdin http) = true := by
  rcases http with _ | ⟨status, body⟩
  · simp [delete_pinata_file, htok, hne, hmem, reportsFailure]
  · have hr : raisesForStatus status = true := by
      simpa [HttpResult.isFailure] using hf
    simp [delete_pinata_file, htok, hne, hmem, hr, reportsFailure]

/-- C3 counterexample: with a stored credential, uploading a local file
that cannot be opened terminates in an uncaught fault — `open` at line 130
sits outside the try/except — although this is a local I/O failure in an
operation other than the update argument parser, and nothing is reported:
the claim's single-exception clause is false. -/
theorem C3_upload_open_uncaught_counterexample :
    (upload_file_to_pinata fsWithToken false "missing.txt" false
        (.response 200 (some .null))).out = .crashed ∧
    (upload_file_to_pinata fsWithToken false "missing.txt" false
        (.response 200 (some .null))).net = [] ∧
    reportsFailure (upload_file_to_pinata fsWithToken false "missing.txt"
        false (.response 200 (some .null))) = false := by
  decide

/-- C3 (amended): for the six operations, every fault arising during the
operation (non-2xx HTTP status, network/transport failure) is caught and
converted to a printed or returned error description and never propagates
as an uncaught fault to the process boundary, with TWO exceptions: the
update command's argument parser, and the upload command's opening of the
local file (which happens outside its try/except). -/
theorem C3_faults_contained_amended
    (fs : FS) (ioFault : Bool) (http : HttpResult)
    (filePath fid fid2 spec stdin : String) (fileExists : Bool) :
    ((test_pinata_authentication fs ioFault http).out ≠ .crashed) ∧
    (fileExists = true →
      (upload_file_to_pinata fs ioFault filePath fileExists http).out ≠
        .crashed) ∧
    ((get_pinata_files fs ioFault http).out ≠ .crashed) ∧
    ((get_pinata_file_details fid fs ioFault http).out ≠ .crashed) ∧
    ((parseUpdateSpec spec.data).isSome = true →
      (update_pinata_file spec fs ioFault http).out ≠ .crashed) ∧
    ((delete_pinata_file fid2 fs ioFault stdin http).out ≠ .crashed) ∧
    (tokenFalsy (read_token fs ioFault) = false → http.isFailure = true →
      reportsFailure (test_pinata_authentication fs ioFault http) = true ∧
      (fileExists = true →
        reportsFailure (upload_file_to_pinata fs ioFault filePath fileExists
          http) = true) ∧
      reportsFailure (get_pinata_files fs ioFault http) = true ∧
      reportsFailure (get_pinata_file_details fid fs ioFault http) = true ∧
      ((parseUpdateSpec spec.data).isSome = true →
        reportsFailure (update_pinata_file spec fs ioFault http) = true) ∧
      (¬ (stdin = "") → pyLower stdin ∈ confirms →
        reportsFailure (delete_pinata_file fid2 fs ioFault stdin http) =
          true)) := by
  refine ⟨auth_not_crashed fs ioFault http, ?_,
    list_not_crashed fs ioFault http,
    details_not_crashed fid fs ioFault http,
    update_not_crashed spec fs ioFault http,
    delete_not_crashed fid2 fs ioFault stdin http,
    ?_⟩
  · intro hfe
    subst hfe
    exact upload_not_crashed fs ioFault filePath http
  · intro htok hf
    refine ⟨auth_reports_failure fs ioFault http htok hf, ?_,
      list_reports_failure fs ioFault http htok hf,
      details_reports_failure fid fs ioFault http htok hf,
      fun hp => update_reports_failure spec fs ioFault http htok hp hf,
      fun hne hmem =>
        delete_reports_failure fid2 fs ioFault stdin http htok hne hmem hf⟩
    intro hfe
    subst hfe
    exact upload_reports_failure fs ioFault filePath http htok hf

/-- Witness for C3 (amended) at a stored credential and a 500 response. -/
theorem C3_faults_contained_amended_witness :
    reportsFailure (test_pinata_authentication fsWithToken false
      (.response 500 none)) = true ∧
    reportsFailure (upload_file_to_pinata fsWithToken false "a.txt" true
      (.response 500 none)) = true ∧
    reportsFailure (get_pinata_files fsWithToken false
      (.response 500 none)) = true ∧
    reportsFailure (get_pinata_file_details "f1" fsWithToken false
      (.response 500 none)) = true ∧
    reportsFailure (update_pinata_file "id=1,name=b" fsWithToken false
      (.response 500 none)) = true ∧
    reportsFailure (delete_pinata_file "f2" fsWithToken false "y"
      (.response 500 none)) = true :=
  ⟨((C3_faults_contained_amended fsWithToken false (.response 500 none)
      "a.txt" "f1" "f2" "id=1,name=b" "y" true).2.2.2.2.2.2
      (by decide) (by decide)).1,
    ((C3_faults_contained_amended fsWithToken false (.response 500 none)
      "a.txt" "f1" "f2" "id=1,name=b" "y" true).2.2.2.2.2.2
      (by decide) (by decide)).2.1 rfl,
    ((C3_faults_contained_amended fsWithToken false (.response 500 none)
      "a.txt" "f1" "f2" "id=1,name=b" "y" true).2.2.2.2.2.2
      (by decide) (by decide)).2.2.1,
    ((C3_faults_contained_amended fsWithToken false (.response 500 none)
      "a.txt" "f1" "f2" "id=1,name=b" "y" true).2.2.2.2.2.2
      (by decide) (by decide)).2.2.2.1,
    ((C3_faults_contained_amended fsWithToken false (.response 500 none)
      "a.txt" "f1" "f2" "id=1,name=b" "y" true).2.2.2.2.2.2
      (by decide) (by decide)).2.2.2.2.1 (by decide),
    ((C3_faults_contained_amended fsWithToken false (.response 500 none)
      "a.txt" "f1" "f2" "id=1,name=b" "y" true).2.2.2.2.2.2
      (by decide) (by decide)).2.2.2.2.2 (by decide) (by decide)⟩

end PinataCLI
